import Mathlib

/-!
Verification development for the `mocap_optitrack` bridge node
(`src/mocap_node.cpp`, class `OptiTrackRosBridge`).

The connection-lifecycle code of `OptiTrackRosBridge` (the `reconfigureCallback`,
`initialize`, `run` and `updateDataModelFromServer` members) is embedded shallowly.
Interaction with the outside world (the `ros::ok()` shutdown signal, the UDP
socket receive results, the wall clock) is supplied as an explicit trace of
"ticks"; the side effects of the code (socket bind/close, sending the NatNet
connection request, publishing a frame, the pacing sleeps) are recorded as an
explicit event list.

Collaborator code of the repository that is not part of `src/` (the `DataModel`
and the natnet message codec) is modelled from the specification, as marked in
the doc comments of the corresponding definitions.
-/

/-- A rigid body: a stable identifier plus a 6-DoF pose (position and
orientation), as decoded from a data-frame message. -/
structure RigidBody where
  bodyId : Nat
  px : Int
  py : Int
  pz : Int
  qx : Int
  qy : Int
  qz : Int
  qw : Int
deriving DecidableEq

/-- `mocap_optitrack::ServerDescription` as used by `mocap_node.cpp`:
enable flag, command port, data port, multicast address, and the optional
protocol-version hint (`version`, empty list when no hint is configured). -/
structure ServerDescription where
  enableOptitrack : Bool
  commandPort : Nat
  dataPort : Nat
  multicastIpAddress : String
  version : List Nat
deriving DecidableEq

/-- The data-frame slot of the data model: the rigid bodies of the most
recently decoded frame (`dataModel.dataFrame.rigidBodies` in the source). -/
structure DataFrame where
  rigidBodies : List RigidBody
deriving DecidableEq

/-- Modelled from the spec: the `DataModel` class (header
`mocap_optitrack/data_model.h`, not under `src/`).  It holds the server
version info once known (`hasServerInfo`, set by decoding a server-info
message or by applying a version hint, spec §3 and §4.3) and the single
mutable frame snapshot. -/
structure DataModel where
  hasValidServerInfo : Bool
  natNetVersion : List Nat
  serverVersion : List Nat
  dataFrame : DataFrame
deriving DecidableEq

/-- Modelled from the spec (§4.3): true once a server-info message has been
decoded or a version hint applied. -/
def DataModel.hasServerInfo (dm : DataModel) : Bool :=
  dm.hasValidServerInfo

/-- Modelled from the spec (§4.3): the NatNet protocol version reported by the
server, consumed by the publish dispatcher construction in `initialize`. -/
def DataModel.getNatNetVersion (dm : DataModel) : List Nat :=
  dm.natNetVersion

/-- Modelled from the spec (§3, §4.1 edge cases): records the server's
versions; after this call `hasServerInfo` is true (a version hint applied
counts as server info being known). -/
def DataModel.setVersions (dm : DataModel) (natnet server : List Nat) : DataModel :=
  { dm with natNetVersion := natnet, serverVersion := server, hasValidServerInfo := true }

/-- Modelled from the spec (§4.3): `clear()` empties the rigid-body sequence
and never touches ServerInfo. -/
def DataModel.clear (dm : DataModel) : DataModel :=
  { dm with dataFrame := ⟨[]⟩ }

/-- A typed protocol event, the outcome of classifying one inbound datagram:
a server-info message, a data-frame message, or an unrecognized payload. -/
inductive NatNetMessage where
  | serverInfo (natNetVersion serverVersion : List Nat)
  | dataFrame (bodies : List RigidBody)
  | unknown
deriving DecidableEq

/-- Whether a decoded message is a server-info message. -/
def NatNetMessage.isServerInfo : NatNetMessage → Bool
  | .serverInfo _ _ => true
  | _ => false

/-- Whether a decoded message is a data-frame message. -/
def NatNetMessage.isDataFrame : NatNetMessage → Bool
  | .dataFrame _ => true
  | _ => false

/-- One socket receive outcome: the byte count returned by
`UdpMulticastSocket::recv()` and, when positive, the typed message those
bytes classify as. -/
structure RecvResult where
  numBytes : Int
  decoded : NatNetMessage
deriving DecidableEq

/-- Modelled from the spec: `natnet::MessageDispatcher::dispatch`
(`natnet/natnet_messages.h`, not under `src/`).  Per spec §6 it mutates
ServerInfo and/or the rigid-body sequence and silently ignores unrecognized
payloads; per invariant I2 a data-frame is not decoded before ServerInfo is
known for the current epoch, so data-frame parsing is aborted while
`hasServerInfo` is false. -/
def MessageDispatcher.dispatch (msg : NatNetMessage) (dm : DataModel) : DataModel :=
  match msg with
  | .serverInfo natnetV serverV => dm.setVersions natnetV serverV
  | .dataFrame bodies =>
      if dm.hasServerInfo then { dm with dataFrame := ⟨bodies⟩ } else dm
  | .unknown => dm

/-- `OptiTrackRosBridge::updateDataModelFromServer`: receives from the
multicast socket; when the byte count is positive the buffer is handed to
`MessageDispatcher::dispatch` against the data model and the function returns
true; otherwise it returns false and the model is untouched. -/
def updateDataModelFromServer (recv : RecvResult) (dm : DataModel) : Bool × DataModel :=
  if 0 < recv.numBytes then (true, MessageDispatcher.dispatch recv.decoded dm)
  else (false, dm)

/-- Observable side effects of the bridge: socket bind/close, sending a NatNet
connection request to the command port, publishing a frame, and the pacing
sleeps (durations in microseconds). -/
inductive Event where
  | bindSocket (dataPort : Nat) (multicastAddress : String)
  | closeSocket (dataPort : Nat) (multicastAddress : String)
  | sendConnectionRequest (commandPort : Nat)
  | publish (time : Nat) (bodies : List RigidBody)
  | sleepMicros (micros : Nat)
deriving DecidableEq

/-- Whether an event is a socket bind. -/
def isBindEvent : Event → Bool
  | .bindSocket _ _ => true
  | _ => false

/-- Whether an event is a socket close. -/
def isCloseEvent : Event → Bool
  | .closeSocket _ _ => true
  | _ => false

/-- Whether an event is a publish (frame dispatch) call. -/
def isPublishEvent : Event → Bool
  | .publish _ _ => true
  | _ => false

/-- Whether an event is a connection-request send. -/
def isSendEvent : Event → Bool
  | .sendConnectionRequest _ => true
  | _ => false

/-- Number of publish (frame dispatch) calls in an event trace. -/
def publishCount (events : List Event) : Nat :=
  (events.filter isPublishEvent).length

/-- Number of connection-request sends in an event trace. -/
def sendCount (events : List Event) : Nat :=
  (events.filter isSendEvent).length

/-- Whether an event is a sleep whose duration (in microseconds) lies in the
closed interval from `lo` to `hi`. -/
def sleepWithinMicros (ev : Event) (lo hi : Nat) : Bool :=
  match ev with
  | .sleepMicros n => lo ≤ n && n ≤ hi
  | _ => false

/-- The pacing pause of the handshake loop in `initialize`:
`if (updateDataModelFromServer()) usleep(10); else sleep(1);` — 10 microseconds
after a receive that yielded bytes, 1 second after an empty receive. -/
def handshakePause (received : Bool) : Event :=
  if received then Event.sleepMicros 10 else Event.sleepMicros 1000000

/-- One iteration's worth of external input to the handshake loop: the value
`ros::ok()` returns at the top of the iteration, and the socket receive
outcome of the iteration's `updateDataModelFromServer` call. -/
structure HandshakeTick where
  rosOk : Bool
  recv : RecvResult
deriving DecidableEq

/-- Why the handshake loop `while (ros::ok() && !dataModel.hasServerInfo())`
stopped: `ros::ok()` was false (shutdown), or server info became known. -/
inductive HandshakeExit where
  | shutdown
  | serverInfoKnown
deriving DecidableEq

/-- Result of running the handshake loop on a finite input trace: the data
model on exit, the emitted events, and the exit reason (`none` when the trace
was exhausted with the loop still running). -/
structure HandshakeResult where
  dataModel : DataModel
  events : List Event
  exitReason : Option HandshakeExit
deriving DecidableEq

/-- The handshake loop of `OptiTrackRosBridge::initialize`:
`while (ros::ok() && !dataModel.hasServerInfo())` — each iteration serializes
and sends a connection request to the command port, calls
`updateDataModelFromServer`, and pauses per `handshakePause`. -/
def handshakeLoop (desc : ServerDescription) : DataModel → List HandshakeTick → HandshakeResult
  | dm, [] => ⟨dm, [], none⟩
  | dm, t :: ts =>
    if t.rosOk then
      if dm.hasServerInfo then ⟨dm, [], some HandshakeExit.serverInfoKnown⟩
      else
        let stepR := updateDataModelFromServer t.recv dm
        let rest := handshakeLoop desc stepR.snd ts
        ⟨rest.dataModel,
         Event.sendConnectionRequest desc.commandPort :: handshakePause stepR.fst :: rest.events,
         rest.exitReason⟩
    else ⟨dm, [], some HandshakeExit.shutdown⟩

/-- The publish dispatcher (`RigidBodyPublishDispatcher`): constructed in
`initialize` from `dataModel.getNatNetVersion()` and the publisher
configurations; recorded here as the pair it was constructed with. -/
structure RigidBodyPublishDispatcher where
  natNetVersion : List Nat
  configs : List Nat
deriving DecidableEq

/-- The member state of `OptiTrackRosBridge`: the stored server description,
publisher configurations (opaque tokens), the data model, the bound multicast
socket (`none` when no socket object exists; otherwise the `(dataPort,
multicastAddress)` it was bound with), the publish dispatcher, and the
`initialized` flag. -/
structure BridgeState where
  serverDescription : ServerDescription
  publisherConfigurations : List Nat
  dataModel : DataModel
  multicastClientSocket : Option (Nat × String)
  publishDispatcher : Option RigidBodyPublishDispatcher
  initialized : Bool
deriving DecidableEq

/-- The socket replacement performed by
`multicastClientSocketPtr.reset(new UdpMulticastSocket(dataPort, multicastIpAddress))`:
the argument `new UdpMulticastSocket(...)` is evaluated first, constructing
and binding the replacement socket, and only then does `unique_ptr::reset`
destroy — and thereby close — the previously held socket.  The emitted event
order records exactly this: bind of the new socket, then close of the old. -/
def socketResetEvents (oldSocket : Option (Nat × String)) (dataPort : Nat)
    (multicastAddress : String) : List Event :=
  Event.bindSocket dataPort multicastAddress ::
    (match oldSocket with
     | some s => [Event.closeSocket s.fst s.snd]
     | none => [])

/-- Result of `initialize` on a finite handshake input trace: the new member
state (`none` when the trace was exhausted with the handshake loop still
running) and the emitted events. -/
structure InitResult where
  state : Option BridgeState
  events : List Event
deriving DecidableEq

/-- `OptiTrackRosBridge::initialize`.  When `enableOptitrack` is set: replaces
the multicast socket (see `socketResetEvents`), pre-seeds the data model's
versions from the description's version hint when that hint is non-empty, runs
the handshake loop, and — once the loop has exited, for either exit reason —
constructs the publish dispatcher from `dataModel.getNatNetVersion()` and sets
`initialized` to true.  When `enableOptitrack` is clear: only sets
`initialized` to false, leaving socket, dispatcher and data model untouched. -/
def initBridge (ticks : List HandshakeTick) (st : BridgeState) : InitResult :=
  if st.serverDescription.enableOptitrack then
    let sockEvents := socketResetEvents st.multicastClientSocket
        st.serverDescription.dataPort st.serverDescription.multicastIpAddress
    let dm0 :=
      if st.serverDescription.version.isEmpty then st.dataModel
      else st.dataModel.setVersions st.serverDescription.version st.serverDescription.version
    let hs := handshakeLoop st.serverDescription dm0 ticks
    let newState :=
      match hs.exitReason with
      | some _ =>
          some { st with
                 dataModel := hs.dataModel,
                 multicastClientSocket :=
                   some (st.serverDescription.dataPort, st.serverDescription.multicastIpAddress),
                 publishDispatcher :=
                   some ⟨hs.dataModel.getNatNetVersion, st.publisherConfigurations⟩,
                 initialized := true }
      | none => none
    ⟨newState, sockEvents ++ hs.events⟩
  else
    ⟨some { st with initialized := false }, []⟩

/-- The `dynamic_reconfigure` payload delivered to `reconfigureCallback`. -/
structure MocapOptitrackConfig where
  enable_optitrack : Bool
  command_port : Nat
  data_port : Nat
  multicast_address : String
deriving DecidableEq

/-- The field updates `reconfigureCallback` applies to the stored
`serverDescription` before it re-runs `initialize`: enable flag, command port,
data port and multicast address are overwritten; every other field — in
particular `version` — is left as it was. -/
def applyReconfigure (sd : ServerDescription) (config : MocapOptitrackConfig) : ServerDescription :=
  { sd with
    enableOptitrack := config.enable_optitrack,
    commandPort := config.command_port,
    dataPort := config.data_port,
    multicastIpAddress := config.multicast_address }

/-- `OptiTrackRosBridge::reconfigureCallback`: overwrites the stored server
description per `applyReconfigure`, then calls `initialize`. -/
def reconfigureCallback (config : MocapOptitrackConfig) (ticks : List HandshakeTick)
    (st : BridgeState) : InitResult :=
  initBridge ticks { st with serverDescription := applyReconfigure st.serverDescription config }

/-- One iteration's worth of external input to the `run` loop: the value
`ros::ok()` returns at the top of the iteration, the socket receive outcome,
and the value `ros::Time::now()` would return. -/
structure RunTick where
  rosOk : Bool
  recv : RecvResult
  time : Nat
deriving DecidableEq

/-- The body of one `run` loop iteration.  When `initialized`: calls
`updateDataModelFromServer`; when that returned true, publishes the model's
rigid bodies with the current time and clears the model; either way pauses
`usleep(100)`.  When not `initialized`: pauses `ros::Duration(1.).sleep()`. -/
def runStepBody (st : BridgeState) (t : RunTick) : BridgeState × List Event :=
  if st.initialized then
    let stepR := updateDataModelFromServer t.recv st.dataModel
    if stepR.fst then
      ({ st with dataModel := stepR.snd.clear },
       [Event.publish t.time stepR.snd.dataFrame.rigidBodies, Event.sleepMicros 100])
    else
      ({ st with dataModel := stepR.snd }, [Event.sleepMicros 100])
  else
    (st, [Event.sleepMicros 1000000])

/-- Result of running the `run` loop on a finite input trace: final state,
emitted events, and whether the loop returned because `ros::ok()` was observed
false (as opposed to the trace being exhausted with the loop still running). -/
structure RunResult where
  state : BridgeState
  events : List Event
  sawShutdown : Bool
deriving DecidableEq

/-- `OptiTrackRosBridge::run`: `while (ros::ok())` around `runStepBody`. -/
def runLoop : BridgeState → List RunTick → RunResult
  | st, [] => ⟨st, [], false⟩
  | st, t :: ts =>
    if t.rosOk then
      let step := runStepBody st t
      let rest := runLoop step.fst ts
      ⟨rest.state, step.snd ++ rest.events, rest.sawShutdown⟩
    else ⟨st, [], true⟩

/-! ## Basic lemmas about the embedded operations -/

theorem dispatch_hasServerInfo (msg : NatNetMessage) (dm : DataModel) :
    (MessageDispatcher.dispatch msg dm).hasServerInfo
      = (dm.hasServerInfo || msg.isServerInfo) := by
  cases msg with
  | serverInfo a b =>
      simp [MessageDispatcher.dispatch, NatNetMessage.isServerInfo,
        DataModel.setVersions, DataModel.hasServerInfo]
  | dataFrame bs =>
      simp only [MessageDispatcher.dispatch, NatNetMessage.isServerInfo]
      split <;> simp [DataModel.hasServerInfo]
  | unknown => simp [MessageDispatcher.dispatch, NatNetMessage.isServerInfo]

theorem dispatch_no_serverInfo_eq (msg : NatNetMessage) (dm : DataModel)
    (hdm : dm.hasServerInfo = false) (hmsg : msg.isServerInfo = false) :
    MessageDispatcher.dispatch msg dm = dm := by
  cases msg with
  | serverInfo a b => simp [NatNetMessage.isServerInfo] at hmsg
  | dataFrame bs => simp [MessageDispatcher.dispatch, hdm]
  | unknown => rfl

theorem update_no_serverInfo_eq (recv : RecvResult) (dm : DataModel)
    (hdm : dm.hasServerInfo = false) (hmsg : recv.decoded.isServerInfo = false) :
    (updateDataModelFromServer recv dm).snd = dm := by
  unfold updateDataModelFromServer
  split
  · simp [dispatch_no_serverInfo_eq recv.decoded dm hdm hmsg]
  · rfl

@[simp] theorem isPublishEvent_bindSocket (p : Nat) (m : String) :
    isPublishEvent (Event.bindSocket p m) = false := rfl

@[simp] theorem isPublishEvent_closeSocket (p : Nat) (m : String) :
    isPublishEvent (Event.closeSocket p m) = false := rfl

@[simp] theorem isPublishEvent_send (p : Nat) :
    isPublishEvent (Event.sendConnectionRequest p) = false := rfl

@[simp] theorem isPublishEvent_publish (t : Nat) (bs : List RigidBody) :
    isPublishEvent (Event.publish t bs) = true := rfl

@[simp] theorem isPublishEvent_sleep (n : Nat) :
    isPublishEvent (Event.sleepMicros n) = false := rfl

@[simp] theorem isSendEvent_bindSocket (p : Nat) (m : String) :
    isSendEvent (Event.bindSocket p m) = false := rfl

@[simp] theorem isSendEvent_closeSocket (p : Nat) (m : String) :
    isSendEvent (Event.closeSocket p m) = false := rfl

@[simp] theorem isSendEvent_send (p : Nat) :
    isSendEvent (Event.sendConnectionRequest p) = true := rfl

@[simp] theorem isSendEvent_publish (t : Nat) (bs : List RigidBody) :
    isSendEvent (Event.publish t bs) = false := rfl

@[simp] theorem isSendEvent_sleep (n : Nat) :
    isSendEvent (Event.sleepMicros n) = false := rfl

@[simp] theorem handshakePause_not_publish (b : Bool) :
    isPublishEvent (handshakePause b) = false := by
  cases b <;> rfl

@[simp] theorem handshakePause_not_send (b : Bool) :
    isSendEvent (handshakePause b) = false := by
  cases b <;> rfl

theorem publishCount_append (a b : List Event) :
    publishCount (a ++ b) = publishCount a + publishCount b := by
  simp [publishCount, List.filter_append]

theorem handshakeLoop_hasServerInfo_true (desc : ServerDescription) (dm : DataModel)
    (ticks : List HandshakeTick) (h : dm.hasServerInfo = true) :
    (handshakeLoop desc dm ticks).dataModel = dm ∧
    (handshakeLoop desc dm ticks).events = [] := by
  cases ticks with
  | nil => exact ⟨rfl, rfl⟩
  | cons t ts =>
      simp only [handshakeLoop]
      cases hr : t.rosOk <;> simp [hr, h]

theorem handshakeLoop_exit_serverInfo (desc : ServerDescription) (dm : DataModel)
    (ticks : List HandshakeTick)
    (h : (handshakeLoop desc dm ticks).exitReason = some HandshakeExit.serverInfoKnown) :
    (handshakeLoop desc dm ticks).dataModel.hasServerInfo = true := by
  induction ticks generalizing dm with
  | nil => simp [handshakeLoop] at h
  | cons t ts ih =>
      simp only [handshakeLoop] at h ⊢
      cases hr : t.rosOk with
      | false => simp [hr] at h
      | true =>
          cases hs : dm.hasServerInfo with
          | true => simp [hr, hs]
          | false =>
              simp only [hr, hs] at h ⊢
              simp at h ⊢
              exact ih _ h

theorem handshakeLoop_no_serverInfo (desc : ServerDescription) (dm : DataModel)
    (ticks : List HandshakeTick) (hdm : dm.hasServerInfo = false)
    (hmsg : ∀ t, t ∈ ticks → t.recv.decoded.isServerInfo = false) :
    (handshakeLoop desc dm ticks).dataModel = dm ∧
    (handshakeLoop desc dm ticks).exitReason ≠ some HandshakeExit.serverInfoKnown ∧
    ((∀ t, t ∈ ticks → t.rosOk = true) → (handshakeLoop desc dm ticks).exitReason = none) := by
  induction ticks generalizing dm with
  | nil => exact ⟨rfl, by simp [handshakeLoop], fun _ => rfl⟩
  | cons t ts ih =>
      have hmsg0 : t.recv.decoded.isServerInfo = false := hmsg t (by simp)
      have hupd : (updateDataModelFromServer t.recv dm).snd = dm :=
        update_no_serverInfo_eq _ _ hdm hmsg0
      simp only [handshakeLoop]
      cases hr : t.rosOk with
      | false =>
          refine ⟨by simp, by simp, fun hall => ?_⟩
          exact absurd (hall t (by simp)) (by simp [hr])
      | true =>
          obtain ⟨ih1, ih2, ih3⟩ := ih dm hdm (fun u hu => hmsg u (by simp [hu]))
          simp only [hr, hdm, hupd]
          refine ⟨by simpa using ih1, by simpa using ih2, fun hall => ?_⟩
          simpa using ih3 (fun u hu => hall u (by simp [hu]))

theorem handshakeLoop_publishCount (desc : ServerDescription) (dm : DataModel)
    (ticks : List HandshakeTick) :
    publishCount (handshakeLoop desc dm ticks).events = 0 := by
  induction ticks generalizing dm with
  | nil => rfl
  | cons t ts ih =>
      simp only [handshakeLoop]
      cases hr : t.rosOk with
      | false => rfl
      | true =>
          cases hs : dm.hasServerInfo with
          | true => simp [hr, hs, publishCount]
          | false =>
              simp only [hr, hs]
              have := ih (updateDataModelFromServer t.recv dm).snd
              simp [publishCount, List.filter_cons] at this ⊢
              exact this

theorem socketResetEvents_publishCount (oldSocket : Option (Nat × String))
    (dataPort : Nat) (multicastAddress : String) :
    publishCount (socketResetEvents oldSocket dataPort multicastAddress) = 0 := by
  cases oldSocket <;> rfl

theorem socketResetEvents_sendCount (oldSocket : Option (Nat × String))
    (dataPort : Nat) (multicastAddress : String) :
    sendCount (socketResetEvents oldSocket dataPort multicastAddress) = 0 := by
  cases oldSocket <;> rfl

theorem initBridge_publishCount (ticks : List HandshakeTick) (st : BridgeState) :
    publishCount (initBridge ticks st).events = 0 := by
  unfold initBridge
  split
  · simp [publishCount_append, socketResetEvents_publishCount, handshakeLoop_publishCount]
  · rfl

theorem runLoop_uninit_publishCount (st : BridgeState) (rticks : List RunTick)
    (h : st.initialized = false) :
    publishCount (runLoop st rticks).events = 0 := by
  induction rticks generalizing st with
  | nil => rfl
  | cons t ts ih =>
      simp only [runLoop]
      cases hr : t.rosOk with
      | false => rfl
      | true =>
          have hstep : runStepBody st t = (st, [Event.sleepMicros 1000000]) := by
            simp [runStepBody, h]
          simp only [hr, hstep]
          have := ih st h
          simp [publishCount, List.filter_cons] at this ⊢
          exact this

theorem runLoop_allOk_noShutdown (st : BridgeState) (rticks : List RunTick)
    (h : ∀ t, t ∈ rticks → t.rosOk = true) :
    (runLoop st rticks).sawShutdown = false := by
  induction rticks generalizing st with
  | nil => rfl
  | cons t ts ih =>
      have hr : t.rosOk = true := h t (by simp)
      simp only [runLoop, hr]
      simpa using ih (runStepBody st t).fst (fun u hu => h u (by simp [hu]))

/-! ## Further structural lemmas -/

theorem initBridge_events (ticks : List HandshakeTick) (st : BridgeState)
    (hEn : st.serverDescription.enableOptitrack = true) :
    (initBridge ticks st).events =
      socketResetEvents st.multicastClientSocket st.serverDescription.dataPort
        st.serverDescription.multicastIpAddress ++
      (handshakeLoop st.serverDescription
        (if st.serverDescription.version.isEmpty then st.dataModel
         else st.dataModel.setVersions st.serverDescription.version st.serverDescription.version)
        ticks).events := by
  simp [initBridge, hEn]

theorem initBridge_keeps_serverInfo (ticks : List HandshakeTick) (st : BridgeState)
    (hInfo : st.dataModel.hasServerInfo = true) :
    Option.all (fun s2 => s2.dataModel.hasServerInfo) (initBridge ticks st).state = true := by
  by_cases hEn : st.serverDescription.enableOptitrack = true
  · by_cases hv : st.serverDescription.version.isEmpty = true
    · have hdm := (handshakeLoop_hasServerInfo_true st.serverDescription st.dataModel ticks hInfo).1
      cases hres : (handshakeLoop st.serverDescription st.dataModel ticks).exitReason with
      | none => simp [initBridge, hEn, hv, hres]
      | some r => simp [initBridge, Option.all, hEn, hv, hres, hdm, hInfo]
    · have hflag : (st.dataModel.setVersions st.serverDescription.version
          st.serverDescription.version).hasServerInfo = true := by
        simp [DataModel.setVersions, DataModel.hasServerInfo]
      have hdm := (handshakeLoop_hasServerInfo_true st.serverDescription
        (st.dataModel.setVersions st.serverDescription.version st.serverDescription.version)
        ticks hflag).1
      cases hres : (handshakeLoop st.serverDescription
          (st.dataModel.setVersions st.serverDescription.version st.serverDescription.version)
          ticks).exitReason with
      | none => simp [initBridge, hEn, hv, hres]
      | some r => simp [initBridge, Option.all, hEn, hv, hres, hdm, hflag]
  · simp [initBridge, Option.all, hEn, hInfo]

/-! ## Concrete fixtures used by counterexamples and witnesses -/

/-- A sample rigid body. -/
def bodyOne : RigidBody := ⟨1, 1, 2, 3, 0, 0, 0, 1⟩

/-- An enabled server description without a version hint. -/
def descOn : ServerDescription := ⟨true, 1511, 1510, "239.255.42.99", []⟩

/-- An enabled server description with a version hint. -/
def descHint : ServerDescription := ⟨true, 1511, 1510, "239.255.42.99", [3, 0, 0, 0]⟩

/-- A data model before any server info is known. -/
def freshModel : DataModel := ⟨false, [], [], ⟨[]⟩⟩

/-- A data model of an epoch whose server info is known. -/
def knownModel : DataModel := ⟨true, [3, 0, 0, 0], [3, 0, 0, 0], ⟨[]⟩⟩

/-- Receive outcome: no datagram pending. -/
def noBytes : RecvResult := ⟨0, NatNetMessage.unknown⟩

/-- Receive outcome: a server-info message advertising version 3.0.0.0. -/
def infoBytes : RecvResult := ⟨10, NatNetMessage.serverInfo [3, 0, 0, 0] [3, 0, 0, 0]⟩

/-- Receive outcome: a data-frame with one rigid body. -/
def frameBytes : RecvResult := ⟨20, NatNetMessage.dataFrame [bodyOne]⟩

/-- Receive outcome: bytes that classify as an unrecognized payload. -/
def junkBytes : RecvResult := ⟨5, NatNetMessage.unknown⟩

/-- Receive outcome: a data-frame with zero rigid bodies (empty frame). -/
def emptyFrameBytes : RecvResult := ⟨8, NatNetMessage.dataFrame []⟩

/-- A bridge state in the middle of Streaming: enabled description, server
info known, socket bound, dispatcher constructed. -/
def streamState : BridgeState :=
  ⟨descOn, [7], knownModel, some (1510, "239.255.42.99"), some ⟨[3, 0, 0, 0], [7]⟩, true⟩

/-- A bridge state before any initialization: nothing bound, nothing known. -/
def freshState : BridgeState := ⟨descOn, [7], freshModel, none, none, false⟩

/-- Like `freshState` but with a version hint in the description. -/
def hintState : BridgeState := ⟨descHint, [7], freshModel, none, none, false⟩

/-- A reconfiguration that keeps the connection enabled but moves it to a new
data port and multicast group. -/
def enableCfg : MocapOptitrackConfig := ⟨true, 1511, 1600, "239.255.42.98"⟩

/-- A reconfiguration that disables the connection. -/
def disableCfg : MocapOptitrackConfig := ⟨false, 1511, 1510, "239.255.42.99"⟩

/-! ## Claim theorems -/

/-- C9 (confirmed): `updateDataModelFromServer` returns true iff the socket
receive yielded a positive byte count — regardless of what decoding the bytes
did to the data model — and when it returns false no decode is attempted: the
data model comes back unchanged. -/
theorem C9_update_true_iff_bytes (recv : RecvResult) (dm : DataModel) :
    ((updateDataModelFromServer recv dm).fst = true ↔ 0 < recv.numBytes) ∧
    (0 < recv.numBytes →
      (updateDataModelFromServer recv dm).snd = MessageDispatcher.dispatch recv.decoded dm) ∧
    ((updateDataModelFromServer recv dm).fst = false →
      (updateDataModelFromServer recv dm).snd = dm) := by
  by_cases hb : 0 < recv.numBytes <;> simp [updateDataModelFromServer, hb]

/-- Witness for C9: a concrete empty receive returns false and leaves the
model unchanged; a concrete receive of unrecognized bytes returns true even
though the decode changed nothing. -/
theorem C9_update_true_iff_bytes_witness :
    (updateDataModelFromServer noBytes knownModel).snd = knownModel ∧
    (updateDataModelFromServer junkBytes knownModel).fst = true := by
  constructor
  · exact (C9_update_true_iff_bytes noBytes knownModel).2.2 (by decide)
  · exact ((C9_update_true_iff_bytes junkBytes knownModel).1).mpr (by decide)

/-- C10 (confirmed): `reconfigureCallback` overwrites exactly the enable
flag, command port, data port and multicast address of the stored server
description and never its `version` field; consequently a version hint
supplied in the initial configuration persists across reconfigurations and
keeps pre-seeding ServerInfo in each new epoch. -/
theorem C10_reconfigure_never_touches_version :
    (∀ (sd : ServerDescription) (config : MocapOptitrackConfig),
      applyReconfigure sd config =
        { enableOptitrack := config.enable_optitrack,
          commandPort := config.command_port,
          dataPort := config.data_port,
          multicastIpAddress := config.multicast_address,
          version := sd.version }) ∧
    (∀ (st : BridgeState) (config : MocapOptitrackConfig) (t : HandshakeTick)
        (ts : List HandshakeTick),
      st.serverDescription.version.isEmpty = false →
      config.enable_optitrack = true →
      t.rosOk = true →
      (reconfigureCallback config (t :: ts) st).state =
        some { st with
               serverDescription := applyReconfigure st.serverDescription config,
               dataModel := st.dataModel.setVersions st.serverDescription.version
                 st.serverDescription.version,
               multicastClientSocket := some (config.data_port, config.multicast_address),
               publishDispatcher :=
                 some ⟨st.serverDescription.version, st.publisherConfigurations⟩,
               initialized := true }) := by
  constructor
  · intro sd config
    cases sd
    rfl
  · intro st config t ts hHint hEn hRos
    obtain ⟨sd, pc, dm, sk, pd, ini⟩ := st
    simp only [BridgeState.serverDescription] at hHint
    simp [reconfigureCallback, initBridge, applyReconfigure, handshakeLoop, hHint, hEn, hRos,
      DataModel.setVersions, DataModel.hasServerInfo, DataModel.getNatNetVersion]

/-- Witness for C10: reconfiguring `hintState` (whose description carries the
hint `[3,0,0,0]`) with `enableCfg` keeps the hint and pre-seeds ServerInfo. -/
theorem C10_reconfigure_never_touches_version_witness :
    applyReconfigure descOn enableCfg =
      { enableOptitrack := true, commandPort := 1511, dataPort := 1600,
        multicastIpAddress := "239.255.42.98", version := [] } ∧
    (reconfigureCallback enableCfg [⟨true, noBytes⟩] hintState).state =
      some { hintState with
             serverDescription := applyReconfigure hintState.serverDescription enableCfg,
             dataModel := hintState.dataModel.setVersions
               hintState.serverDescription.version hintState.serverDescription.version,
             multicastClientSocket := some (enableCfg.data_port, enableCfg.multicast_address),
             publishDispatcher :=
               some ⟨hintState.serverDescription.version, hintState.publisherConfigurations⟩,
             initialized := true } := by
  constructor
  · exact C10_reconfigure_never_touches_version.1 descOn enableCfg
  · exact C10_reconfigure_never_touches_version.2 hintState enableCfg ⟨true, noBytes⟩ []
      (by decide) (by decide) (by decide)

/-- C5 (confirmed): for a description whose version hint is non-empty (and the
connection enabled), `initialize` pre-seeds ServerInfo from the hint before
the handshake loop, so the loop body executes zero times — the emitted events
are exactly the socket-replacement events, with zero connection-request
sends — while the transport bind to `(dataPort, multicastAddress)` still
occurs. -/
theorem C5_hint_skips_handshake (ticks : List HandshakeTick) (st : BridgeState)
    (hEn : st.serverDescription.enableOptitrack = true)
    (hHint : st.serverDescription.version.isEmpty = false) :
    (initBridge ticks st).events =
      socketResetEvents st.multicastClientSocket st.serverDescription.dataPort
        st.serverDescription.multicastIpAddress ∧
    sendCount (initBridge ticks st).events = 0 ∧
    Event.bindSocket st.serverDescription.dataPort st.serverDescription.multicastIpAddress ∈
      (initBridge ticks st).events := by
  have hflag : (st.dataModel.setVersions st.serverDescription.version
      st.serverDescription.version).hasServerInfo = true := by
    simp [DataModel.setVersions, DataModel.hasServerInfo]
  have hev0 := (handshakeLoop_hasServerInfo_true st.serverDescription
    (st.dataModel.setVersions st.serverDescription.version st.serverDescription.version)
    ticks hflag).2
  have hev : (initBridge ticks st).events =
      socketResetEvents st.multicastClientSocket st.serverDescription.dataPort
        st.serverDescription.multicastIpAddress := by
    rw [initBridge_events ticks st hEn]
    simp [hHint, hev0]
  refine ⟨hev, ?_, ?_⟩
  · rw [hev]; exact socketResetEvents_sendCount _ _ _
  · rw [hev]; simp [socketResetEvents]

/-- Witness for C5 at `hintState`, with a data-frame datagram delivered while
the handshake loop would otherwise still be polling. -/
theorem C5_hint_skips_handshake_witness :
    (initBridge [⟨true, frameBytes⟩] hintState).events =
      socketResetEvents hintState.multicastClientSocket hintState.serverDescription.dataPort
        hintState.serverDescription.multicastIpAddress ∧
    sendCount (initBridge [⟨true, frameBytes⟩] hintState).events = 0 ∧
    Event.bindSocket hintState.serverDescription.dataPort
        hintState.serverDescription.multicastIpAddress ∈
      (initBridge [⟨true, frameBytes⟩] hintState).events :=
  C5_hint_skips_handshake [⟨true, frameBytes⟩] hintState (by decide) (by decide)

/-- C7 (confirmed): the handshake loop is an unbounded retry that never gives
up because of server unavailability.  With server info unknown and no
server-info message anywhere in the delivered trace, the only possible exit
reason is the external shutdown signal; if `ros::ok()` stays true throughout
the trace, the loop is still running when the trace ends; and the `run` loop
likewise returns only upon observing `ros::ok()` false at the top of an
iteration. -/
theorem C7_unbounded_retry :
    (∀ (desc : ServerDescription) (dm : DataModel) (ticks : List HandshakeTick)
        (r : HandshakeExit),
      dm.hasServerInfo = false →
      (∀ t, t ∈ ticks → t.recv.decoded.isServerInfo = false) →
      (handshakeLoop desc dm ticks).exitReason = some r → r = HandshakeExit.shutdown) ∧
    (∀ (desc : ServerDescription) (dm : DataModel) (ticks : List HandshakeTick),
      dm.hasServerInfo = false →
      (∀ t, t ∈ ticks → t.recv.decoded.isServerInfo = false) →
      (∀ t, t ∈ ticks → t.rosOk = true) →
      (handshakeLoop desc dm ticks).exitReason = none) ∧
    (∀ (st : BridgeState) (rticks : List RunTick),
      (∀ t, t ∈ rticks → t.rosOk = true) → (runLoop st rticks).sawShutdown = false) := by
  refine ⟨?_, ?_, ?_⟩
  · intro desc dm ticks r hdm hmsg hr
    obtain ⟨-, h2, -⟩ := handshakeLoop_no_serverInfo desc dm ticks hdm hmsg
    cases r with
    | shutdown => rfl
    | serverInfoKnown => exact absurd hr h2
  · intro desc dm ticks hdm hmsg hall
    exact (handshakeLoop_no_serverInfo desc dm ticks hdm hmsg).2.2 hall
  · exact runLoop_allOk_noShutdown

/-- Witness for C7: one junk-datagram handshake tick with `ros::ok()` true
leaves the loop running, and a run-loop trace with `ros::ok()` true never
observes shutdown. -/
theorem C7_unbounded_retry_witness :
    (handshakeLoop descOn freshModel [⟨true, junkBytes⟩]).exitReason = none ∧
    (runLoop streamState [⟨true, junkBytes, 5⟩]).sawShutdown = false := by
  constructor
  · exact C7_unbounded_retry.2.1 descOn freshModel [⟨true, junkBytes⟩]
      (by decide) (by decide) (by decide)
  · exact C7_unbounded_retry.2.2 streamState [⟨true, junkBytes, 5⟩] (by decide)

theorem sendCount_append (a b : List Event) :
    sendCount (a ++ b) = sendCount a + sendCount b := by
  simp [sendCount, List.filter_append]

theorem dispatch_dataFrame_unchanged (msg : NatNetMessage) (dm : DataModel)
    (hdm : dm.hasServerInfo = false) :
    (MessageDispatcher.dispatch msg dm).dataFrame = dm.dataFrame := by
  cases msg with
  | serverInfo a b => simp [MessageDispatcher.dispatch, DataModel.setVersions]
  | dataFrame bs => simp [MessageDispatcher.dispatch, hdm]
  | unknown => rfl

theorem handshakeLoop_noInfo_dataFrame (desc : ServerDescription) (dm : DataModel)
    (ticks : List HandshakeTick)
    (h : (handshakeLoop desc dm ticks).dataModel.hasServerInfo = false) :
    (handshakeLoop desc dm ticks).dataModel.dataFrame = dm.dataFrame := by
  induction ticks generalizing dm with
  | nil => rfl
  | cons t ts ih =>
      simp only [handshakeLoop] at h ⊢
      cases hr : t.rosOk with
      | false => simp [hr]
      | true =>
          cases hs : dm.hasServerInfo with
          | true => simp [hr, hs]
          | false =>
              simp only [hr, hs] at h ⊢
              simp at h ⊢
              have hstep : (updateDataModelFromServer t.recv dm).snd.dataFrame = dm.dataFrame := by
                unfold updateDataModelFromServer
                split
                · exact dispatch_dataFrame_unchanged _ _ hs
                · rfl
              rw [ih _ h, hstep]

/-- C1 counterexample: if `ros::ok()` is observed false before any server info
has arrived, the handshake loop in `initialize` exits and `initialize` still
constructs the publish dispatcher — so at this concrete input the dispatcher
is constructed while `hasServerInfo()` is false, refuting the clause that the
publish dispatcher is only constructed after `hasServerInfo()` becomes
true. -/
theorem C1_counterexample :
    ¬ (∀ (ticks : List HandshakeTick) (st st' : BridgeState),
        st.dataModel.hasServerInfo = false →
        st.serverDescription.enableOptitrack = true →
        st.publishDispatcher = none →
        (initBridge ticks st).state = some st' →
        st'.publishDispatcher.isSome = true →
        st'.dataModel.hasServerInfo = true) := by
  intro h
  have := h [⟨false, noBytes⟩] freshState
      ⟨descOn, [7], freshModel, some (1510, "239.255.42.99"), some ⟨[], [7]⟩, true⟩
      (by decide) (by decide) (by decide) (by decide) (by decide)
  exact absurd this (by decide)

/-- C1 amended: while `hasServerInfo()` is false no publish occurs (neither
the handshake loop nor `initialize` ever emits a publish event) and no
data-frame is decoded (whenever the loop ends with server info still unknown,
the frame slot of the data model is exactly as it started); the publish
dispatcher is constructed only when the handshake loop exits, and when that
exit is because server info became known (rather than shutdown) the returned
state carries `hasServerInfo() = true` together with the dispatcher built
from that epoch's version. -/
theorem C1_amended :
    (∀ (ticks : List HandshakeTick) (st : BridgeState),
      publishCount (initBridge ticks st).events = 0) ∧
    (∀ (desc : ServerDescription) (dm : DataModel) (ticks : List HandshakeTick),
      (handshakeLoop desc dm ticks).dataModel.hasServerInfo = false →
      (handshakeLoop desc dm ticks).dataModel.dataFrame = dm.dataFrame) ∧
    (∀ (ticks : List HandshakeTick) (st : BridgeState),
      st.serverDescription.enableOptitrack = true →
      st.serverDescription.version.isEmpty = true →
      (handshakeLoop st.serverDescription st.dataModel ticks).exitReason =
        some HandshakeExit.serverInfoKnown →
      (initBridge ticks st).state =
        some { st with
               dataModel := (handshakeLoop st.serverDescription st.dataModel ticks).dataModel,
               multicastClientSocket :=
                 some (st.serverDescription.dataPort, st.serverDescription.multicastIpAddress),
               publishDispatcher :=
                 some ⟨(handshakeLoop st.serverDescription st.dataModel
                   ticks).dataModel.getNatNetVersion, st.publisherConfigurations⟩,
               initialized := true } ∧
      (handshakeLoop st.serverDescription st.dataModel ticks).dataModel.hasServerInfo = true) := by
  refine ⟨initBridge_publishCount, handshakeLoop_noInfo_dataFrame, ?_⟩
  intro ticks st hEn hHint hExit
  constructor
  · simp [initBridge, hEn, hHint, hExit]
  · exact handshakeLoop_exit_serverInfo _ _ _ hExit

/-- Witness for C1 amended: a data-frame delivered during the handshake
triggers no publish and leaves the frame slot untouched; once a server-info
message arrives, `initialize` returns with server info known. -/
theorem C1_amended_witness :
    publishCount (initBridge [⟨true, frameBytes⟩] freshState).events = 0 ∧
    (handshakeLoop descOn freshModel [⟨true, frameBytes⟩]).dataModel.dataFrame =
      freshModel.dataFrame ∧
    (handshakeLoop descOn freshModel
      [⟨true, infoBytes⟩, ⟨true, noBytes⟩]).dataModel.hasServerInfo = true := by
  refine ⟨C1_amended.1 [⟨true, frameBytes⟩] freshState,
          C1_amended.2.1 descOn freshModel [⟨true, frameBytes⟩] (by decide), ?_⟩
  exact (C1_amended.2.2 [⟨true, infoBytes⟩, ⟨true, noBytes⟩] freshState
    (by decide) (by decide) (by decide)).2

/-- C2 counterexample: at a concrete mid-Streaming state, reconfiguring with
an enabled description emits the bind of the replacement socket BEFORE the
close of the old one — `unique_ptr::reset(new UdpMulticastSocket(...))`
evaluates its argument (constructing and binding the new socket) before
destroying the old — so the first close event does not precede the first bind
event, refuting the claimed teardown order. -/
theorem C2_counterexample :
    ¬ (∀ (st : BridgeState) (config : MocapOptitrackConfig) (ticks : List HandshakeTick)
        (s : Nat × String),
        st.multicastClientSocket = some s →
        config.enable_optitrack = true →
        (reconfigureCallback config ticks st).events.findIdx isCloseEvent <
          (reconfigureCallback config ticks st).events.findIdx isBindEvent) := by
  intro h
  have := h streamState enableCfg [] (1510, "239.255.42.99") (by decide) (by decide)
  exact absurd this (by decide)

/-- C2 amended: on a reconfiguration with an already-bound transport and an
enabled new description, the replacement socket is bound first and the old
socket closed immediately afterwards (the first two emitted events, in that
order), so there is a window in which both are open; and ServerInfo is not
discarded — if server info was known before the reconfiguration, every state
the reconfiguration returns still has it, so dispatch after reconfiguration
uses the carried-over ServerInfo. -/
theorem C2_amended (st : BridgeState) (config : MocapOptitrackConfig)
    (ticks : List HandshakeTick) (s : Nat × String)
    (hSock : st.multicastClientSocket = some s)
    (hEn : config.enable_optitrack = true) :
    (reconfigureCallback config ticks st).events.take 2 =
      [Event.bindSocket config.data_port config.multicast_address,
       Event.closeSocket s.fst s.snd] ∧
    (st.dataModel.hasServerInfo = true →
      Option.all (fun s2 => s2.dataModel.hasServerInfo)
        (reconfigureCallback config ticks st).state = true) := by
  constructor
  · have hev := initBridge_events ticks
      { st with serverDescription := applyReconfigure st.serverDescription config }
      (by simp [applyReconfigure, hEn])
    show (initBridge ticks
      { st with serverDescription := applyReconfigure st.serverDescription config }).events.take 2 = _
    rw [hev]
    simp [socketResetEvents, hSock, applyReconfigure]
  · intro hInfo
    exact initBridge_keeps_serverInfo ticks _ hInfo

/-- Witness for C2 amended at the concrete mid-Streaming state. -/
theorem C2_amended_witness :
    (reconfigureCallback enableCfg [] streamState).events.take 2 =
      [Event.bindSocket 1600 "239.255.42.98", Event.closeSocket 1510 "239.255.42.99"] ∧
    Option.all (fun s2 => s2.dataModel.hasServerInfo)
      (reconfigureCallback enableCfg [] streamState).state = true := by
  have h := C2_amended streamState enableCfg [] (1510, "239.255.42.99") (by decide) (by decide)
  exact ⟨h.1, h.2 (by decide)⟩

/-- C3 counterexample: the claim entails that after a reconfiguration the
previous epoch's ServerInfo is discarded and must be re-established by a
fresh handshake or a hint; so with no hint, no server-info message anywhere
in the trace, and no shutdown, the handshake could never complete.  At the
concrete mid-Streaming state, however, `reconfigureCallback` completes
immediately — the handshake loop exits at once because the carried-over
ServerInfo is still present. -/
theorem C3_counterexample :
    ¬ (∀ (st : BridgeState) (config : MocapOptitrackConfig) (ticks : List HandshakeTick),
        st.serverDescription.version.isEmpty = true →
        config.enable_optitrack = true →
        (∀ t, t ∈ ticks → t.recv.decoded.isServerInfo = false) →
        (∀ t, t ∈ ticks → t.rosOk = true) →
        (reconfigureCallback config ticks st).state = none) := by
  intro h
  have := h streamState enableCfg [⟨true, junkBytes⟩]
    (by decide) (by decide) (by decide) (by decide)
  exact absurd this (by decide)

/-- C3 amended: reconfiguration does not discard the previous epoch's
ServerInfo.  When server info is already present, no hint is set, the new
description is enabled and `ros::ok()` holds, `reconfigureCallback` returns
with the data model carried over unchanged, the publish dispatcher rebuilt
from the carried-over version, and zero connection-request sends — the
handshake loop exits immediately instead of re-establishing ServerInfo. -/
theorem C3_amended (st : BridgeState) (config : MocapOptitrackConfig)
    (t : HandshakeTick) (ts : List HandshakeTick)
    (hInfo : st.dataModel.hasServerInfo = true)
    (hHint : st.serverDescription.version.isEmpty = true)
    (hEn : config.enable_optitrack = true)
    (hRos : t.rosOk = true) :
    (reconfigureCallback config (t :: ts) st).state =
      some { st with
             serverDescription := applyReconfigure st.serverDescription config,
             multicastClientSocket := some (config.data_port, config.multicast_address),
             publishDispatcher :=
               some ⟨st.dataModel.getNatNetVersion, st.publisherConfigurations⟩,
             initialized := true } ∧
    sendCount (reconfigureCallback config (t :: ts) st).events = 0 := by
  have hev : (reconfigureCallback config (t :: ts) st).events =
      socketResetEvents st.multicastClientSocket config.data_port config.multicast_address := by
    have h1 := initBridge_events (t :: ts)
      { st with serverDescription := applyReconfigure st.serverDescription config }
      (by simp [applyReconfigure, hEn])
    show (initBridge (t :: ts)
      { st with serverDescription := applyReconfigure st.serverDescription config }).events = _
    rw [h1]
    simp [applyReconfigure, hHint,
      (handshakeLoop_hasServerInfo_true _ st.dataModel (t :: ts) hInfo).2]
  refine ⟨?_, ?_⟩
  · obtain ⟨sd, pc, dm, sk, pd, ini⟩ := st
    simp only [BridgeState.serverDescription, BridgeState.dataModel] at hHint hInfo
    simp [reconfigureCallback, initBridge, applyReconfigure, handshakeLoop,
      hHint, hEn, hRos, hInfo, DataModel.getNatNetVersion]
  · rw [hev]
    exact socketResetEvents_sendCount _ _ _

/-- Witness for C3 amended at the concrete mid-Streaming state: the data
model (version 3.0.0.0 from the old epoch) is carried over into the new
epoch with zero connection requests sent. -/
theorem C3_amended_witness :
    (reconfigureCallback enableCfg [⟨true, junkBytes⟩] streamState).state =
      some { streamState with
             serverDescription := applyReconfigure streamState.serverDescription enableCfg,
             multicastClientSocket := some (enableCfg.data_port, enableCfg.multicast_address),
             publishDispatcher :=
               some ⟨streamState.dataModel.getNatNetVersion,
                     streamState.publisherConfigurations⟩,
             initialized := true } ∧
    sendCount (reconfigureCallback enableCfg [⟨true, junkBytes⟩] streamState).events = 0 :=
  C3_amended streamState enableCfg ⟨true, junkBytes⟩ []
    (by decide) (by decide) (by decide) (by decide)

/-- C4 counterexample: in the Streaming loop, `run` publishes whenever
`updateDataModelFromServer` returned true — i.e. whenever the receive yielded
bytes — not only when those bytes decoded to a data-frame.  At the concrete
state, a server-info message arriving mid-Streaming still triggers exactly
one publish call, refuting the claimed "publish iff the bytes decoded to a
data-frame". -/
theorem C4_counterexample :
    ¬ (∀ (st : BridgeState) (t : RunTick),
        st.initialized = true →
        (publishCount (runStepBody st t).snd = 1 ↔
          (0 < t.recv.numBytes ∧ t.recv.decoded.isDataFrame = true))) := by
  intro h
  have := (h streamState ⟨true, infoBytes, 42⟩ (by decide)).mp (by decide)
  exact absurd this.2 (by decide)

/-- C4 amended: in each Streaming iteration, publish is invoked exactly once
iff the receive yielded bytes — whatever message kind those bytes decoded to —
and a successfully decoded data-frame with zero rigid bodies is still
dispatched (the iteration publishes the empty rigid-body list). -/
theorem C4_amended (st : BridgeState) (t : RunTick) (hInit : st.initialized = true) :
    (publishCount (runStepBody st t).snd = if 0 < t.recv.numBytes then 1 else 0) ∧
    (0 < t.recv.numBytes → st.dataModel.hasServerInfo = true →
      t.recv.decoded = NatNetMessage.dataFrame [] →
      (runStepBody st t).snd = [Event.publish t.time [], Event.sleepMicros 100]) := by
  constructor
  · by_cases hb : 0 < t.recv.numBytes
    · simp [runStepBody, updateDataModelFromServer, hInit, hb, publishCount, List.filter_cons]
    · simp [runStepBody, updateDataModelFromServer, hInit, hb, publishCount, List.filter_cons]
  · intro hb hInfo hdec
    simp [runStepBody, updateDataModelFromServer, hInit, hb, hdec,
      MessageDispatcher.dispatch, hInfo]

/-- Witness for C4 amended: junk bytes trigger one publish, an empty receive
triggers none, and an empty data-frame is dispatched as an empty list. -/
theorem C4_amended_witness :
    publishCount (runStepBody streamState ⟨true, junkBytes, 3⟩).snd = 1 ∧
    publishCount (runStepBody streamState ⟨true, noBytes, 3⟩).snd = 0 ∧
    (runStepBody streamState ⟨true, emptyFrameBytes, 9⟩).snd =
      [Event.publish 9 [], Event.sleepMicros 100] := by
  refine ⟨?_, ?_, ?_⟩
  · rw [(C4_amended streamState ⟨true, junkBytes, 3⟩ (by decide)).1]
    decide
  · rw [(C4_amended streamState ⟨true, noBytes, 3⟩ (by decide)).1]
    decide
  · exact (C4_amended streamState ⟨true, emptyFrameBytes, 9⟩ (by decide)).2
      (by decide) (by decide) (by decide)

/-- C6 counterexample: at the concrete mid-Streaming state, a reconfiguration
with `enable_optitrack = false` neither leaves the returned state without a
socket nor emits any close event — the socket pointer is simply left
untouched — refuting the claim that the transport socket is closed. -/
theorem C6_counterexample :
    ¬ (∀ (st : BridgeState) (config : MocapOptitrackConfig) (ticks : List HandshakeTick),
        config.enable_optitrack = false →
        st.multicastClientSocket.isSome = true →
        (Option.all (fun s2 => s2.multicastClientSocket.isNone)
            (reconfigureCallback config ticks st).state
          || (reconfigureCallback config ticks st).events.any isCloseEvent) = true) := by
  intro h
  have := h streamState disableCfg [] (by decide) (by decide)
  exact absurd this (by decide)

/-- C6 amended: a reconfiguration that disables the connection does NOT close
the transport socket — it leaves the socket (and dispatcher, and data model)
untouched, emits no events, and only clears `initialized`; with
`initialized` false the run loop performs zero publish calls (it just sleeps)
until a later reconfiguration re-enables the connection. -/
theorem C6_amended :
    (∀ (st : BridgeState) (config : MocapOptitrackConfig) (ticks : List HandshakeTick),
      config.enable_optitrack = false →
      (reconfigureCallback config ticks st).state =
        some { st with
               serverDescription := applyReconfigure st.serverDescription config,
               initialized := false } ∧
      (reconfigureCallback config ticks st).events = []) ∧
    (∀ (st : BridgeState) (rticks : List RunTick),
      st.initialized = false → publishCount (runLoop st rticks).events = 0) := by
  constructor
  · intro st config ticks hEn
    constructor
    · simp [reconfigureCallback, initBridge, applyReconfigure, hEn]
    · simp [reconfigureCallback, initBridge, applyReconfigure, hEn]
  · exact runLoop_uninit_publishCount

/-- Witness for C6 amended: disabling at the concrete mid-Streaming state
keeps the socket bound, and the disabled state publishes nothing even when a
data-frame datagram arrives. -/
theorem C6_amended_witness :
    (reconfigureCallback disableCfg [] streamState).state =
      some { streamState with
             serverDescription := applyReconfigure streamState.serverDescription disableCfg,
             initialized := false } ∧
    publishCount
      (runLoop { streamState with initialized := false } [⟨true, frameBytes, 4⟩]).events = 0 :=
  ⟨(C6_amended.1 streamState disableCfg [] (by decide)).1,
   C6_amended.2 { streamState with initialized := false } [⟨true, frameBytes, 4⟩] rfl⟩

/-- C8 counterexample: the pause after a receive that yields bytes is
`usleep(10)` — 10 microseconds — which is three orders of magnitude below the
claimed "approximately 10 milliseconds" (not even within the generous window
of 5000 to 20000 microseconds). -/
theorem C8_counterexample :
    ¬ (∀ (desc : ServerDescription) (dm : DataModel) (t : HandshakeTick)
        (ts : List HandshakeTick),
        t.rosOk = true → dm.hasServerInfo = false → 0 < t.recv.numBytes →
        sleepWithinMicros
          ((handshakeLoop desc dm (t :: ts)).events.getD 1 (Event.sleepMicros 0))
          5000 20000 = true) := by
  intro h
  have := h descOn freshModel ⟨true, junkBytes⟩ [] (by decide) (by decide) (by decide)
  exact absurd this (by decide)

/-- C8 amended: each handshake iteration emits the connection-request send
followed by a pause of 10 microseconds when the receive yielded bytes and of
1 second (1000000 microseconds) when it yielded nothing. -/
theorem C8_amended (desc : ServerDescription) (dm : DataModel) (t : HandshakeTick)
    (ts : List HandshakeTick) (hRos : t.rosOk = true) (hInfo : dm.hasServerInfo = false) :
    (handshakeLoop desc dm (t :: ts)).events =
      Event.sendConnectionRequest desc.commandPort ::
      (if 0 < t.recv.numBytes then Event.sleepMicros 10 else Event.sleepMicros 1000000) ::
      (handshakeLoop desc (updateDataModelFromServer t.recv dm).snd ts).events := by
  simp only [handshakeLoop, hRos, hInfo]
  by_cases hb : 0 < t.recv.numBytes <;>
    simp [updateDataModelFromServer, handshakePause, hb]

/-- Witness for C8 amended: one byte-yielding tick then one empty tick give
the pauses 10 microseconds and 1 second respectively. -/
theorem C8_amended_witness :
    (handshakeLoop descOn freshModel [⟨true, junkBytes⟩, ⟨true, noBytes⟩]).events =
      [Event.sendConnectionRequest 1511, Event.sleepMicros 10,
       Event.sendConnectionRequest 1511, Event.sleepMicros 1000000] := by
  rw [C8_amended descOn freshModel ⟨true, junkBytes⟩ [⟨true, noBytes⟩] rfl rfl]
  decide
